import Mathlib

/-!
Formal model of the document-vault password-based encryption core.

The development shallowly embeds the TypeScript encryption/decryption
modules (`encrypt.ts`, `decrypt.ts`, `key.ts`, `utils.ts`, `constants.ts`).
Byte sequences (Node `Buffer`s) are lists of naturals kept below 256.
Control flow (validation order, try/catch/finally, error classification)
is translated statement by statement from the source.

The cryptographic primitives of the Node `crypto` library are not part of
the repository; they are modelled as executable idealizations:

* PBKDF2-HMAC-SHA256 (`crypto.pbkdf2`) is a deterministic 32-byte key
  derivation.  The model realizes the primitive's overwhelming-probability
  salt separation exactly: for 16-byte salts, distinct salts give distinct
  keys by construction.
* AES-256-GCM is a counter-mode keystream XOR together with a tag computed
  by a polynomial (Horner) hash of the ciphertext keyed by the key and IV,
  mirroring the CTR+GHASH structure of real GCM.  `decipher.final()`
  recomputes the tag and releases plaintext only when it equals the stored
  tag, exactly as the real primitive does.
* `crypto.createCipheriv`/`createDecipheriv` throw on a zero-length GCM IV
  ("Invalid initialization vector"); `setAuthTag` throws when the supplied
  tag does not have the configured 16-byte length (a message containing
  the substring "auth", which the source's classifier maps to
  WRONG_PASSWORD).  GCM encryption of arbitrary data with a well-formed
  key and IV does not throw.
* Randomness (`crypto.randomBytes`, `generateIV`) is passed in explicitly:
  each operation receives the bytes the real call would have drawn.

The filesystem is a finite association list from paths to file contents;
every stored path is a regular file, matching how the claims exercise the
file operations.
-/

deriving instance DecidableEq for Except

namespace DocVault

/-- Byte sequences (Node `Buffer`s) as lists of naturals. -/
abbrev Bytes := List Nat

/-- Well-formed buffer: every entry is an actual byte value. -/
def ByteWF (l : Bytes) : Prop := ∀ b ∈ l, b < 256

instance (l : Bytes) : Decidable (ByteWF l) := List.decidableBAll _ l

-- ── constants.ts ────────────────────────────────────────────────────────────

def AES_KEY_LENGTH_BYTES : Nat := 32
def GCM_AUTH_TAG_LENGTH_BYTES : Nat := 16
def PBKDF2_ITERATIONS : Nat := 150000
def SALT_LENGTH_BYTES : Nat := 16
def IV_LENGTH_BYTES : Nat := 12
def ENCRYPTION_FORMAT_VERSION : Int := 1

-- ── Base-64 (utils.ts: toBase64 / fromBase64 / isValidBase64) ───────────────

/-- The standard base-64 alphabet. -/
def b64Alphabet : List Char :=
  "ABCDEFGHIJKLMNOPQRSTUVWXYZabcdefghijklmnopqrstuvwxyz0123456789+/".data

/-- Character for a 6-bit value. -/
def charOfVal (v : Nat) : Char := b64Alphabet.getD v 'A'

/-- 6-bit value of an alphabet character. -/
def valOfChar (c : Char) : Option Nat := b64Alphabet.findIdx? (fun x => x == c)

/-- RFC 4648 base-64 encoding of a byte list, with `=` padding. -/
def b64Encode : List Nat → List Char
  | [] => []
  | [a] => [charOfVal (a / 4), charOfVal (a % 4 * 16), '=', '=']
  | [a, b] => [charOfVal (a / 4), charOfVal (a % 4 * 16 + b / 16),
               charOfVal (b % 16 * 4), '=']
  | a :: b :: c :: rest =>
      charOfVal (a / 4) :: charOfVal (a % 4 * 16 + b / 16) ::
      charOfVal (b % 16 * 4 + c / 64) :: charOfVal (c % 64) :: b64Encode rest

/-- `toBase64`: `Buffer.prototype.toString("base64")`. -/
def toBase64 (data : Bytes) : String := String.mk (b64Encode data)

/-- Regroup a list of 6-bit values into bytes (trailing sub-byte bits drop). -/
def b64DecodeVals : List Nat → List Nat
  | s0 :: s1 :: s2 :: s3 :: rest =>
      (s0 * 4 + s1 / 16) :: (s1 % 16 * 16 + s2 / 4) :: (s2 % 4 * 64 + s3) ::
        b64DecodeVals rest
  | [s0, s1] => [s0 * 4 + s1 / 16]
  | [s0, s1, s2] => [s0 * 4 + s1 / 16, s1 % 16 * 16 + s2 / 4]
  | _ => []

/-- `fromBase64`: `Buffer.from(str, "base64")` — padding is stripped and the
alphabet characters are decoded. -/
def fromBase64 (s : String) : Bytes :=
  b64DecodeVals ((s.data.filter (fun c => !(c == '='))).filterMap valOfChar)

/-- The body/padding shape accepted by the source's base-64 regular
expression (alphabet characters, then up to two `=`, then the end). -/
def b64Shape : List Char → Bool
  | [] => true
  | c :: rest =>
      if c = '=' then rest == ([] : List Char) || rest == ['=']
      else b64Alphabet.contains c && b64Shape rest

/-- `isValidBase64` from `decryption/utils.ts`: non-empty, matches the
regular expression, and has length divisible by 4. -/
def isValidBase64 (s : String) : Bool :=
  !(s.data.isEmpty) && b64Shape s.data && s.data.length % 4 == 0

-- ── Idealized crypto primitives ─────────────────────────────────────────────

/-- Deterministic mixing fold used by the idealized primitives. -/
def mixList (l : List Nat) : Nat := l.foldl (fun a b => a * 131 + b + 7) 5

/-- Keystream byte `i` of AES-256-CTR under `key` and `iv` (idealized). -/
def ksByte (key iv : Bytes) (i : Nat) : Nat := mixList (key ++ iv ++ [i]) % 256

/-- XOR a buffer against the keystream starting at position `i`; this is both
GCM encryption and GCM decryption of the data bytes. -/
def gcmXor (key iv : Bytes) : Nat → Bytes → Bytes
  | _, [] => []
  | i, b :: bs => (b ^^^ ksByte key iv i) :: gcmXor key iv (i + 1) bs

/-- GHASH-style polynomial authentication tag over the ciphertext, keyed by
`key` and `iv`: a Horner evaluation modulo the prime 257, emitted as a
16-byte buffer. -/
def gcmTag (key iv ct : Bytes) : Bytes :=
  let r := mixList key % 256 + 1
  let t := ct.foldl (fun a b => (a * r + b) % 257) (mixList (key ++ iv) % 257)
  [t % 256, t / 256] ++ List.replicate 14 0

-- ── Key derivation (key.ts) ─────────────────────────────────────────────────

/-- Idealized PBKDF2-HMAC-SHA256, 150,000 iterations, 32-byte output.  The
first half embeds the (padded) salt, realizing exactly the real primitive's
overwhelming-probability salt separation; the second half is a toy PRF of
password and salt. -/
def pbkdf2 (password : String) (salt : Bytes) : Bytes :=
  (salt ++ List.replicate 16 0).take 16 ++
    (List.range 16).map
      (fun i => mixList ((password.data.map Char.toNat) ++ salt ++ [i]) % 256)

/-- Result of `deriveKey` (`DerivedKeyResult` in types.ts). -/
structure DerivedKeyResult where
  key : Bytes
  salt : Bytes
  iterations : Nat
deriving DecidableEq, Repr

/-- `deriveKey(password, salt?)` from `key.ts`.  `saltRand` is the 16 random
bytes `crypto.randomBytes` would return when no salt is supplied. -/
def deriveKey (password : String) (salt : Option Bytes) (saltRand : Bytes) :
    Except String DerivedKeyResult :=
  if password.length = 0 then
    Except.error "Password must not be empty."
  else
    let usedSalt := salt.getD saltRand
    Except.ok ⟨pbkdf2 password usedSalt, usedSalt, PBKDF2_ITERATIONS⟩

-- ── Encryption module (encrypt.ts, encryption/utils.ts) ─────────────────────

/-- `EncryptedPayload`: base-64 encoded fields plus the format version. -/
structure EncryptedPayload where
  cipherText : String
  salt : String
  iv : String
  authTag : String
  version : Int
deriving DecidableEq, Repr

/-- `EncryptedPayloadRaw`: the same record with raw binary fields. -/
structure EncryptedPayloadRaw where
  cipherBytes : Bytes
  salt : Bytes
  iv : Bytes
  authTag : Bytes
  version : Int
deriving DecidableEq, Repr

/-- `EncryptBufferOptions`: password plus optional caller-injected salt/IV. -/
structure EncryptBufferOptions where
  password : String
  salt : Option Bytes
  iv : Option Bytes
deriving DecidableEq, Repr

namespace Encryption

/-- `validatePassword` from `encryption/utils.ts`: non-empty and at least
8 characters. -/
def validatePassword (password : String) : Except String Unit :=
  if password.length = 0 then
    Except.error "Password must be a non-empty string."
  else if password.length < 8 then
    Except.error "Password must be at least 8 characters long for adequate security."
  else
    Except.ok ()

end Encryption

/-- `crypto.createCipheriv("aes-256-gcm", key, iv, ...)`: throws on a wrong
key size or an empty GCM IV, otherwise succeeds. -/
def createCipheriv (key iv : Bytes) : Except String Unit :=
  if key.length ≠ AES_KEY_LENGTH_BYTES then
    Except.error "Invalid key length"
  else if iv.length = 0 then
    Except.error "Invalid initialization vector"
  else
    Except.ok ()

/-- Outcome of `encryptBuffer`, together with ghost state recording whether
the derived key buffer was created and whether `key.fill(0)` executed. -/
structure EncResult where
  res : Except String EncryptedPayload
  keyDerived : Bool
  keyWiped : Bool
deriving DecidableEq, Repr

/-- `encryptBuffer(data, options)` from `encrypt.ts`.  `saltRand` and
`ivRand` are the random bytes the call would draw when the caller injects no
salt/IV.  The source wipes the key with `key.fill(0)` only on the straight-line
success path (there is no try/finally), which the `keyWiped` ghost flag
records faithfully. -/
def encryptBuffer (data : Bytes) (options : EncryptBufferOptions)
    (saltRand ivRand : Bytes) : EncResult :=
  match Encryption.validatePassword options.password with
  | Except.error e => ⟨Except.error e, false, false⟩
  | Except.ok _ =>
    let plainBuffer := data
    let iv := options.iv.getD ivRand
    match deriveKey options.password options.salt saltRand with
    | Except.error e => ⟨Except.error e, false, false⟩
    | Except.ok dk =>
      match createCipheriv dk.key iv with
      | Except.error e => ⟨Except.error e, true, false⟩
      | Except.ok _ =>
        let encrypted := gcmXor dk.key iv 0 plainBuffer
        let authTag := gcmTag dk.key iv encrypted
        ⟨Except.ok ⟨toBase64 encrypted, toBase64 dk.salt, toBase64 iv,
                    toBase64 authTag, ENCRYPTION_FORMAT_VERSION⟩,
         true, true⟩

-- ── Decryption module (decrypt.ts, decryption/utils.ts) ─────────────────────

/-- `DecryptionErrorCode` from `decryption/types.ts`. -/
inductive DecryptionErrorCode where
  | WRONG_PASSWORD
  | INTEGRITY_CHECK_FAILED
  | INVALID_FORMAT
  | UNSUPPORTED_VERSION
  | MISSING_FIELDS
  | FILE_ERROR
  | UNKNOWN
deriving DecidableEq, Repr

/-- `DecryptionError`: message plus a typed code. -/
structure DecryptionError where
  message : String
  code : DecryptionErrorCode
deriving DecidableEq, Repr

/-- A runtime payload value as `validatePayload` sees it: each field may be
absent (`undefined`/`null`). -/
structure PayloadLike where
  cipherText : Option String
  salt : Option String
  iv : Option String
  authTag : Option String
  version : Option Int
deriving DecidableEq, Repr

/-- View a well-typed payload as a runtime payload. -/
def EncryptedPayload.toLike (p : EncryptedPayload) : PayloadLike :=
  ⟨some p.cipherText, some p.salt, some p.iv, some p.authTag, some p.version⟩

/-- `validatePayload` from `decryption/utils.ts`: required fields, base-64
well-formedness (ciphertext only when non-empty), decoded lengths, then the
format version — in that order. -/
def validatePayload (payload : PayloadLike) : Except DecryptionError Unit :=
  if payload.cipherText.isNone then
    Except.error ⟨"Missing required field: cipherText", DecryptionErrorCode.MISSING_FIELDS⟩
  else if payload.salt.isNone then
    Except.error ⟨"Missing required field: salt", DecryptionErrorCode.MISSING_FIELDS⟩
  else if payload.iv.isNone then
    Except.error ⟨"Missing required field: iv", DecryptionErrorCode.MISSING_FIELDS⟩
  else if payload.authTag.isNone then
    Except.error ⟨"Missing required field: authTag", DecryptionErrorCode.MISSING_FIELDS⟩
  else if payload.version.isNone then
    Except.error ⟨"Missing required field: version", DecryptionErrorCode.MISSING_FIELDS⟩
  else
    let ct := payload.cipherText.getD ""
    let saltS := payload.salt.getD ""
    let ivS := payload.iv.getD ""
    let tagS := payload.authTag.getD ""
    if 0 < ct.length ∧ ¬ isValidBase64 ct then
      Except.error ⟨"cipherText is not valid base-64", DecryptionErrorCode.INVALID_FORMAT⟩
    else if ¬ isValidBase64 saltS then
      Except.error ⟨"salt is not valid base-64", DecryptionErrorCode.INVALID_FORMAT⟩
    else if ¬ isValidBase64 ivS then
      Except.error ⟨"iv is not valid base-64", DecryptionErrorCode.INVALID_FORMAT⟩
    else if ¬ isValidBase64 tagS then
      Except.error ⟨"authTag is not valid base-64", DecryptionErrorCode.INVALID_FORMAT⟩
    else if (fromBase64 saltS).length ≠ SALT_LENGTH_BYTES then
      Except.error ⟨"Salt must be 16 bytes", DecryptionErrorCode.INVALID_FORMAT⟩
    else if (fromBase64 ivS).length ≠ IV_LENGTH_BYTES then
      Except.error ⟨"IV must be 12 bytes", DecryptionErrorCode.INVALID_FORMAT⟩
    else if (fromBase64 tagS).length ≠ GCM_AUTH_TAG_LENGTH_BYTES then
      Except.error ⟨"Auth tag must be 16 bytes", DecryptionErrorCode.INVALID_FORMAT⟩
    else if payload.version.getD 0 ≠ ENCRYPTION_FORMAT_VERSION then
      Except.error ⟨"Unsupported encryption version", DecryptionErrorCode.UNSUPPORTED_VERSION⟩
    else
      Except.ok ()

namespace Decryption

/-- `validatePassword` from `decryption/utils.ts`: only non-emptiness. -/
def validatePassword (password : String) : Except DecryptionError Unit :=
  if password.length = 0 then
    Except.error ⟨"Password must be a non-empty string.", DecryptionErrorCode.MISSING_FIELDS⟩
  else
    Except.ok ()

end Decryption

/-- The error decrypt operations raise when GCM authentication fails. -/
def wrongPasswordError : DecryptionError :=
  ⟨"Decryption failed: incorrect password or data has been tampered with.",
   DecryptionErrorCode.WRONG_PASSWORD⟩

/-- `DecryptionResult`: plaintext plus the verified flag. -/
structure DecryptionResult where
  data : Bytes
  verified : Bool
deriving DecidableEq, Repr

/-- `DecryptBufferOptions` / `DecryptFileOptions`: the password. -/
structure DecryptBufferOptions where
  password : String
deriving DecidableEq, Repr

/-- The common try/catch body of the decrypt operations: create the
decipher (throws "Invalid initialization vector" on an empty IV, which the
source's substring classifier maps to UNKNOWN), set the auth tag (throws a
message containing "auth" on a wrong tag length, classified WRONG_PASSWORD),
then decrypt; `decipher.final()` releases plaintext only when the recomputed
tag equals the stored tag, else throws "unable to authenticate", classified
WRONG_PASSWORD. -/
def gcmDecryptCore (key ivBytes authTagBytes cipherBytes : Bytes) :
    Except DecryptionError DecryptionResult :=
  if ivBytes.length = 0 then
    Except.error ⟨"Decryption failed: Invalid initialization vector",
                  DecryptionErrorCode.UNKNOWN⟩
  else if authTagBytes.length ≠ GCM_AUTH_TAG_LENGTH_BYTES then
    Except.error wrongPasswordError
  else if gcmTag key ivBytes cipherBytes = authTagBytes then
    Except.ok ⟨gcmXor key ivBytes 0 cipherBytes, true⟩
  else
    Except.error wrongPasswordError

/-- Outcome of a buffer decrypt, with a ghost counter of `deriveKey` calls
(the spec's suggested "derivation call-counter" instrumentation). -/
structure BufOutcome where
  res : Except DecryptionError DecryptionResult
  deriveCalls : Nat
deriving DecidableEq, Repr

/-- `decryptBuffer(payload, options)` from `decrypt.ts`: password check,
payload validation, base-64 decoding, key re-derivation from the stored
salt, then authenticated decryption. -/
def decryptBuffer (payload : EncryptedPayload) (options : DecryptBufferOptions) :
    BufOutcome :=
  match Decryption.validatePassword options.password with
  | Except.error e => ⟨Except.error e, 0⟩
  | Except.ok _ =>
  match validatePayload payload.toLike with
  | Except.error e => ⟨Except.error e, 0⟩
  | Except.ok _ =>
    let cipherBytes := fromBase64 payload.cipherText
    let saltBytes := fromBase64 payload.salt
    let ivBytes := fromBase64 payload.iv
    let authTagBytes := fromBase64 payload.authTag
    match deriveKey options.password (some saltBytes) [] with
    | Except.error e =>
        ⟨Except.error ⟨"Decryption failed: " ++ e, DecryptionErrorCode.UNKNOWN⟩, 1⟩
    | Except.ok dk =>
        ⟨gcmDecryptCore dk.key ivBytes authTagBytes cipherBytes, 1⟩

/-- `decryptBufferRaw(payload, options)` from `decrypt.ts`: note that it
performs no payload validation before deriving the key. -/
def decryptBufferRaw (payload : EncryptedPayloadRaw) (options : DecryptBufferOptions) :
    BufOutcome :=
  match Decryption.validatePassword options.password with
  | Except.error e => ⟨Except.error e, 0⟩
  | Except.ok _ =>
  match deriveKey options.password (some payload.salt) [] with
  | Except.error e =>
      ⟨Except.error ⟨"Decryption failed: " ++ e, DecryptionErrorCode.UNKNOWN⟩, 1⟩
  | Except.ok dk =>
      ⟨gcmDecryptCore dk.key payload.iv payload.authTag payload.cipherBytes, 1⟩

-- ── Filesystem model and file operations (decrypt.ts) ───────────────────────

/-- The filesystem: an association list from paths to regular-file bytes. -/
abbrev FS := List (String × Bytes)

/-- Read a file (`fs.readFileSync`) / test existence (`fs.existsSync`). -/
def fsLookup (fs : FS) (p : String) : Option Bytes := fs.lookup p

/-- Delete a file (`fs.unlinkSync`); deleting an absent path is a no-op,
matching the source's `if (fs.existsSync(...)) fs.unlinkSync(...)`. -/
def fsErase (fs : FS) (p : String) : FS := fs.filter (fun e => !(e.1 == p))

/-- Write a file (`fs.writeFileSync` / a completed write stream). -/
def fsWrite (fs : FS) (p : String) (c : Bytes) : FS := (p, c) :: fsErase fs p

/-- `EncryptionMetadata` from types.ts. -/
structure EncryptionMetadata where
  salt : String
  iv : String
  authTag : String
  originalFileName : String
  mimeType : String
  originalSize : Nat
  version : Int
  encryptedAt : String
deriving DecidableEq, Repr

/-- `DecryptFileResult` from types.ts. -/
structure DecryptFileResult where
  outputPath : String
  originalFileName : String
  mimeType : String
  size : Nat
  verified : Bool
deriving DecidableEq, Repr

/-- `DecryptFileOptions`: the password. -/
structure DecryptFileOptions where
  password : String
deriving DecidableEq, Repr

/-- Outcome of a file decrypt: result, final filesystem, and the ghost
`deriveKey` call counter. -/
structure FileOutcome where
  res : Except DecryptionError DecryptFileResult
  fs : FS
  deriveCalls : Nat
deriving DecidableEq, Repr

/-- `decryptFile(inputPath, outputPath, metadata, options)` from
`decrypt.ts`: password check, input existence, metadata decoding (with no
payload validation), key re-derivation, authenticated decryption, and only
then the output write.  The catch block deletes whatever file exists at
`outputPath` before the error propagates. -/
def decryptFile (inputPath outputPath : String) (metadata : EncryptionMetadata)
    (options : DecryptFileOptions) (fs : FS) : FileOutcome :=
  match Decryption.validatePassword options.password with
  | Except.error e => ⟨Except.error e, fs, 0⟩
  | Except.ok _ =>
  match fsLookup fs inputPath with
  | none =>
      ⟨Except.error ⟨"Encrypted file not found: " ++ inputPath,
                     DecryptionErrorCode.FILE_ERROR⟩, fs, 0⟩
  | some cipherBytes =>
    let saltBytes := fromBase64 metadata.salt
    let ivBytes := fromBase64 metadata.iv
    let authTagBytes := fromBase64 metadata.authTag
    match deriveKey options.password (some saltBytes) [] with
    | Except.error e =>
        ⟨Except.error ⟨"Decryption failed: " ++ e, DecryptionErrorCode.UNKNOWN⟩, fs, 1⟩
    | Except.ok dk =>
      match gcmDecryptCore dk.key ivBytes authTagBytes cipherBytes with
      | Except.ok r =>
          ⟨Except.ok ⟨outputPath, metadata.originalFileName, metadata.mimeType,
                      r.data.length, true⟩,
           fsWrite fs outputPath r.data, 1⟩
      | Except.error e =>
          ⟨Except.error e, fsErase fs outputPath, 1⟩

/-- `decryptFileStream(inputPath, outputPath, metadata, options)` from
`decrypt.ts`.  The decipher is created and the tag set before any output
file exists, so those throws leave the filesystem untouched (and propagate
as raw errors, modelled with code UNKNOWN); a tag-verification failure
during the pipe triggers the decipher error handler, which deletes the
partially written output before rejecting with WRONG_PASSWORD. -/
def decryptFileStream (inputPath outputPath : String) (metadata : EncryptionMetadata)
    (options : DecryptFileOptions) (fs : FS) : FileOutcome :=
  match Decryption.validatePassword options.password with
  | Except.error e => ⟨Except.error e, fs, 0⟩
  | Except.ok _ =>
  match fsLookup fs inputPath with
  | none =>
      ⟨Except.error ⟨"Encrypted file not found: " ++ inputPath,
                     DecryptionErrorCode.FILE_ERROR⟩, fs, 0⟩
  | some cipherBytes =>
    let saltBytes := fromBase64 metadata.salt
    let ivBytes := fromBase64 metadata.iv
    let authTagBytes := fromBase64 metadata.authTag
    match deriveKey options.password (some saltBytes) [] with
    | Except.error e =>
        ⟨Except.error ⟨e, DecryptionErrorCode.UNKNOWN⟩, fs, 1⟩
    | Except.ok dk =>
      if ivBytes.length = 0 then
        ⟨Except.error ⟨"Invalid initialization vector", DecryptionErrorCode.UNKNOWN⟩,
         fs, 1⟩
      else if authTagBytes.length ≠ GCM_AUTH_TAG_LENGTH_BYTES then
        ⟨Except.error ⟨"Invalid authentication tag length", DecryptionErrorCode.UNKNOWN⟩,
         fs, 1⟩
      else if gcmTag dk.key ivBytes cipherBytes = authTagBytes then
        let plaintext := gcmXor dk.key ivBytes 0 cipherBytes
        ⟨Except.ok ⟨outputPath, metadata.originalFileName, metadata.mimeType,
                    plaintext.length, true⟩,
         fsWrite fs outputPath plaintext, 1⟩
      else
        ⟨Except.error wrongPasswordError, fsErase fs outputPath, 1⟩

-- ── Shared utilities (encryption/utils.ts, decryption/utils.ts) ─────────────

/-- `secureWipe`: overwrite every byte with zero. -/
def secureWipe (buffer : Bytes) : Bytes := buffer.map (fun _ => 0)

/-- `crypto.timingSafeEqual`: defined only on equal-length buffers (the
primitive throws otherwise), where it is byte equality in constant time. -/
def cryptoTimingSafeEqual (a b : Bytes) (_h : a.length = b.length) : Bool :=
  a == b

/-- The `timingSafeEqual` wrapper from `utils.ts`: returns `false` on a
length mismatch instead of invoking the partial primitive. -/
def timingSafeEqual (a b : Bytes) : Bool :=
  if h : a.length = b.length then cryptoTimingSafeEqual a b h else false

-- ── Concrete inputs for counterexamples and witnesses ───────────────────────

/-- Random salt drawn by the first encryption call of the C7 scenario. -/
def cexS1 : Bytes := List.replicate 16 1

/-- Random salt drawn by the second encryption call of the C7 scenario. -/
def cexS2 : Bytes := List.replicate 16 2

/-- Random IV drawn by the first encryption call of the C7 scenario. -/
def cexI1 : Bytes := List.replicate 12 1

/-- Random IV drawn by the second encryption call of the C7 scenario. -/
def cexI2 : Bytes := List.replicate 12 2

/-- Salt of the version-999 raw payload fed to `decryptBufferRaw`. -/
def c4Salt : Bytes := List.replicate 16 3

/-- IV of the version-999 raw payload fed to `decryptBufferRaw`. -/
def c4Iv : Bytes := List.replicate 12 4

/-- Key for the version-999 raw payload. -/
def c4Key : Bytes := pbkdf2 "correct-password" c4Salt

/-- Plaintext protected by the version-999 raw payload. -/
def c4Plain : Bytes := [72, 105]

/-- Ciphertext of the version-999 raw payload. -/
def c4Cipher : Bytes := gcmXor c4Key c4Iv 0 c4Plain

/-- A well-authenticated raw payload whose version field is 999. -/
def c4Raw : EncryptedPayloadRaw :=
  ⟨c4Cipher, c4Salt, c4Iv, gcmTag c4Key c4Iv c4Cipher, 999⟩

/-- Options with a valid password and a caller-injected zero-length IV. -/
def c3Options : EncryptBufferOptions := ⟨"password1", none, some []⟩

/-- Metadata whose stored tag does not authenticate the stored file. -/
def c5Metadata : EncryptionMetadata :=
  ⟨toBase64 (List.replicate 16 0), toBase64 (List.replicate 12 0),
   toBase64 (List.replicate 16 0), "doc.txt", "text/plain", 3, 1,
   "2026-01-01T00:00:00.000Z"⟩

/-- Filesystem holding the encrypted input and a pre-existing output file. -/
def c5Fs : FS := [("in.enc", [1, 2, 3]), ("out.txt", [9, 9])]

/-- Metadata for the C9 scenario (stored tag does not authenticate). -/
def c9Metadata : EncryptionMetadata :=
  ⟨toBase64 (List.replicate 16 5), toBase64 (List.replicate 12 6),
   toBase64 (List.replicate 16 7), "report.pdf", "application/pdf", 4, 1,
   "2026-02-02T00:00:00.000Z"⟩

/-- Filesystem for the C9 scenario: the output path holds an unrelated
pre-existing file that this decrypt call never wrote. -/
def c9Fs : FS := [("cipher.enc", [4, 4, 4, 4]), ("plain.pdf", [1, 2, 3, 4, 5])]

/-- Version-999 typed payload fed to `decryptBuffer` in the C4 witness. -/
def c4Payload : EncryptedPayload := ⟨"", "AAAA", "AAAA", "AAAA", 999⟩

/-- Metadata used by the C4 witness file scenarios. -/
def c4Metadata : EncryptionMetadata :=
  ⟨toBase64 (List.replicate 16 8), toBase64 (List.replicate 12 8),
   toBase64 (List.replicate 16 8), "a.txt", "text/plain", 2, 999,
   "2026-03-03T00:00:00.000Z"⟩

/-- Filesystem used by the C4 witness file scenarios. -/
def c4Fs : FS := [("f.enc", [1, 2])]

-- ════════════════════════════════════════════════════════════════════════════
-- Lemmas
-- ════════════════════════════════════════════════════════════════════════════

-- ── Base-64 alphabet facts ──────────────────────────────────────────────────

theorem b64Alphabet_length : b64Alphabet.length = 64 := by decide

theorem charOfVal_fin_ne_pad : ∀ v : Fin 64, charOfVal v.val ≠ '=' := by decide

theorem charOfVal_fin_mem : ∀ v : Fin 64, charOfVal v.val ∈ b64Alphabet := by decide

theorem valOfChar_charOfVal_fin :
    ∀ v : Fin 64, valOfChar (charOfVal v.val) = some v.val := by decide

theorem charOfVal_ge {v : Nat} (h : 64 ≤ v) : charOfVal v = 'A' := by
  unfold charOfVal
  exact List.getD_eq_default _ _ (by rw [b64Alphabet_length]; exact h)

theorem charOfVal_ne_pad (v : Nat) : charOfVal v ≠ '=' := by
  by_cases h : v < 64
  · exact charOfVal_fin_ne_pad ⟨v, h⟩
  · rw [charOfVal_ge (by omega)]
    decide

theorem charOfVal_beq_pad (v : Nat) : (charOfVal v == '=') = false := by
  simp [charOfVal_ne_pad v]

theorem charOfVal_mem (v : Nat) : charOfVal v ∈ b64Alphabet := by
  by_cases h : v < 64
  · exact charOfVal_fin_mem ⟨v, h⟩
  · rw [charOfVal_ge (by omega)]
    decide

theorem valOfChar_charOfVal {v : Nat} (h : v < 64) :
    valOfChar (charOfVal v) = some v :=
  valOfChar_charOfVal_fin ⟨v, h⟩

-- ── Base-64 round trip ──────────────────────────────────────────────────────

theorem b64_decode_encode : ∀ (l : List Nat), (∀ b ∈ l, b < 256) →
    b64DecodeVals (((b64Encode l).filter (fun c => !(c == '='))).filterMap valOfChar) = l
  | [], _ => by simp [b64Encode, b64DecodeVals]
  | [a], h => by
      have ha : a < 256 := h a (by simp)
      have h0 : a / 4 < 64 := by omega
      have h1 : a % 4 * 16 < 64 := by omega
      simp only [b64Encode, List.filter_cons, charOfVal_beq_pad, Bool.not_false,
        Bool.not_true, if_true, if_false, List.filter_nil, List.filterMap_cons,
        valOfChar_charOfVal h0, valOfChar_charOfVal h1, List.filterMap_nil,
        b64DecodeVals]
      simp only [List.cons.injEq, and_true]
      omega
  | [a, b], h => by
      have ha : a < 256 := h a (by simp)
      have hb : b < 256 := h b (by simp)
      have h0 : a / 4 < 64 := by omega
      have h1 : a % 4 * 16 + b / 16 < 64 := by omega
      have h2 : b % 16 * 4 < 64 := by omega
      simp only [b64Encode, List.filter_cons, charOfVal_beq_pad, Bool.not_false,
        Bool.not_true, if_true, if_false, List.filter_nil, List.filterMap_cons,
        valOfChar_charOfVal h0, valOfChar_charOfVal h1, valOfChar_charOfVal h2,
        List.filterMap_nil, b64DecodeVals]
      simp only [List.cons.injEq, and_true]
      constructor
      · omega
      · omega
  | a :: b :: c :: rest, h => by
      have ha : a < 256 := h a (by simp)
      have hb : b < 256 := h b (by simp)
      have hc : c < 256 := h c (by simp)
      have ih := b64_decode_encode rest (fun x hx => h x (by simp [hx]))
      have h0 : a / 4 < 64 := by omega
      have h1 : a % 4 * 16 + b / 16 < 64 := by omega
      have h2 : b % 16 * 4 + c / 64 < 64 := by omega
      have h3 : c % 64 < 64 := by omega
      simp only [b64Encode, List.filter_cons, charOfVal_beq_pad, Bool.not_false,
        if_true, List.filterMap_cons, valOfChar_charOfVal h0,
        valOfChar_charOfVal h1, valOfChar_charOfVal h2, valOfChar_charOfVal h3,
        b64DecodeVals]
      rw [ih]
      simp only [List.cons.injEq]
      refine ⟨by omega, by omega, by omega, trivial⟩

theorem b64Encode_ne_nil : ∀ {l : List Nat}, l ≠ [] → b64Encode l ≠ []
  | [], h => absurd rfl h
  | [_], _ => by simp [b64Encode]
  | [_, _], _ => by simp [b64Encode]
  | _ :: _ :: _ :: _, _ => by simp [b64Encode]

theorem b64Encode_length_mod : ∀ (l : List Nat), (b64Encode l).length % 4 = 0
  | [] => by simp [b64Encode]
  | [_] => by simp [b64Encode]
  | [_, _] => by simp [b64Encode]
  | _ :: _ :: _ :: rest => by
      have ih := b64Encode_length_mod rest
      simp [b64Encode]
      omega

theorem b64Shape_encode : ∀ (l : List Nat), b64Shape (b64Encode l) = true
  | [] => rfl
  | [a] => by
      simp [b64Encode, b64Shape, charOfVal_ne_pad, charOfVal_mem]
  | [a, b] => by
      simp [b64Encode, b64Shape, charOfVal_ne_pad, charOfVal_mem]
  | a :: b :: c :: rest => by
      have ih := b64Shape_encode rest
      simp [b64Encode, b64Shape, charOfVal_ne_pad, charOfVal_mem, ih]

theorem data_toBase64 (l : List Nat) : (toBase64 l).data = b64Encode l := rfl

theorem isValidBase64_toBase64 {l : List Nat} (h : l ≠ []) :
    isValidBase64 (toBase64 l) = true := by
  have hs := b64Shape_encode l
  have hm := b64Encode_length_mod l
  have hn : b64Encode l ≠ [] := b64Encode_ne_nil h
  simp [isValidBase64, data_toBase64, hs, hn, hm, List.isEmpty_iff]

theorem fromBase64_toBase64 {l : Bytes} (h : ByteWF l) :
    fromBase64 (toBase64 l) = l := by
  unfold fromBase64
  rw [data_toBase64]
  exact b64_decode_encode l h

theorem toBase64_inj {l1 l2 : Bytes} (h1 : ByteWF l1) (h2 : ByteWF l2)
    (he : toBase64 l1 = toBase64 l2) : l1 = l2 := by
  rw [← fromBase64_toBase64 h1, ← fromBase64_toBase64 h2, he]

-- ── GCM model lemmas ────────────────────────────────────────────────────────

theorem xor_byte_lt {a b : Nat} (ha : a < 256) (hb : b < 256) : a ^^^ b < 256 := by
  have e : (2 : Nat) ^ 8 = 256 := by norm_num
  have h : a ^^^ b < 2 ^ 8 :=
    Nat.xor_lt_two_pow (by rw [e]; exact ha) (by rw [e]; exact hb)
  rw [e] at h
  exact h

theorem ksByte_lt (key iv : Bytes) (i : Nat) : ksByte key iv i < 256 :=
  Nat.mod_lt _ (by norm_num)

theorem gcmXor_gcmXor (key iv : Bytes) :
    ∀ (i : Nat) (l : Bytes), gcmXor key iv i (gcmXor key iv i l) = l
  | _, [] => rfl
  | i, b :: bs => by
      simp [gcmXor, Nat.xor_cancel_right, gcmXor_gcmXor key iv (i + 1) bs]

theorem gcmXor_length (key iv : Bytes) :
    ∀ (i : Nat) (l : Bytes), (gcmXor key iv i l).length = l.length
  | _, [] => rfl
  | i, _ :: bs => by simp [gcmXor, gcmXor_length key iv (i + 1) bs]

theorem gcmXor_wf (key iv : Bytes) :
    ∀ (i : Nat) (l : Bytes), ByteWF l → ByteWF (gcmXor key iv i l)
  | _, [], _ => by intro b hb; simp [gcmXor] at hb
  | i, x :: xs, h => by
      intro b hb
      simp only [gcmXor, List.mem_cons] at hb
      rcases hb with hb | hb
      · subst hb
        exact xor_byte_lt (h x (by simp)) (ksByte_lt key iv i)
      · exact gcmXor_wf key iv (i + 1) xs (fun y hy => h y (by simp [hy])) b hb

theorem gcmXor_ne_nil (key iv : Bytes) (i : Nat) {l : Bytes} (h : l ≠ []) :
    gcmXor key iv i l ≠ [] := by
  intro he
  apply h
  have := gcmXor_length key iv i l
  rw [he] at this
  exact List.length_eq_zero.mp this.symm

theorem tagFold_lt (r : Nat) :
    ∀ (l : List Nat) (a : Nat), a < 257 →
      l.foldl (fun a b => (a * r + b) % 257) a < 257
  | [], a, ha => ha
  | _ :: bs, a, _ => by
      simp only [List.foldl_cons]
      exact tagFold_lt r bs _ (Nat.mod_lt _ (by norm_num))

theorem gcmTag_length (key iv ct : Bytes) : (gcmTag key iv ct).length = 16 := by
  simp [gcmTag]

theorem gcmTag_wf (key iv ct : Bytes) : ByteWF (gcmTag key iv ct) := by
  intro b hb
  simp only [gcmTag, List.mem_append, List.mem_cons, List.mem_replicate,
    List.not_mem_nil, or_false] at hb
  have ht : ct.foldl (fun a b => (a * (mixList key % 256 + 1) + b) % 257)
      (mixList (key ++ iv) % 257) < 257 :=
    tagFold_lt _ ct _ (Nat.mod_lt _ (by norm_num))
  rcases hb with (hb | hb) | hb <;> omega

theorem gcmTag_ne_nil (key iv ct : Bytes) : gcmTag key iv ct ≠ [] := by
  intro h
  have := gcmTag_length key iv ct
  rw [h] at this
  simp at this

-- ── PBKDF2 model lemmas ─────────────────────────────────────────────────────

theorem pbkdf2_length (w : String) (s : Bytes) : (pbkdf2 w s).length = 32 := by
  simp [pbkdf2]

theorem pbkdf2_take (w : String) {s : Bytes} (h : s.length = 16) :
    (pbkdf2 w s).take 16 = s := by
  unfold pbkdf2
  rw [List.take_append_eq_append_take]
  have h1 : (s ++ List.replicate 16 0).take 16 = s := List.take_left' h
  rw [h1, h, List.take_of_length_le (le_of_eq h)]
  simp

theorem pbkdf2_inj_salt (w : String) {s1 s2 : Bytes} (h1 : s1.length = 16)
    (h2 : s2.length = 16) (hne : s1 ≠ s2) : pbkdf2 w s1 ≠ pbkdf2 w s2 := by
  intro he
  apply hne
  rw [← pbkdf2_take w h1, ← pbkdf2_take w h2, he]

theorem pbkdf2_wf (w : String) {s : Bytes} (hs : ByteWF s) :
    ByteWF (pbkdf2 w s) := by
  intro b hb
  simp only [pbkdf2, List.mem_append, List.mem_map, List.mem_range] at hb
  rcases hb with hb | ⟨i, _, hi⟩
  · have := List.mem_of_mem_take hb
    simp only [List.mem_append, List.mem_replicate] at this
    rcases this with h | h
    · exact hs b h
    · omega
  · omega

-- ── Filesystem lemmas ───────────────────────────────────────────────────────

theorem fsLookup_fsErase_self : ∀ (fs : FS) (p : String),
    fsLookup (fsErase fs p) p = none
  | [], _ => rfl
  | (q, c) :: rest, p => by
      by_cases h : q = p
      · subst h
        simp only [fsErase, List.filter_cons, beq_self_eq_true, Bool.not_true,
          if_false]
        exact fsLookup_fsErase_self rest q
      · have hb : (q == p) = false := by simp [h]
        have hb2 : (p == q) = false := by
          simp only [beq_eq_false_iff_ne, ne_eq]
          exact fun he => h he.symm
        simp only [fsErase, List.filter_cons, hb, Bool.not_false, if_true]
        simp only [fsLookup, List.lookup, hb2]
        exact fsLookup_fsErase_self rest p

-- ── Operation-level helper lemmas ───────────────────────────────────────────

theorem validatePasswordDec_ok {W : String} (h : W.length ≠ 0) :
    Decryption.validatePassword W = Except.ok () := by
  unfold Decryption.validatePassword
  rw [if_neg h]

theorem deriveKey_some_ok {W : String} (h : W.length ≠ 0) (S r : Bytes) :
    deriveKey W (some S) r = Except.ok ⟨pbkdf2 W S, S, PBKDF2_ITERATIONS⟩ := by
  unfold deriveKey
  rw [if_neg h]
  rfl

theorem validatePayload_toLike_version_ne {p : EncryptedPayload}
    (h : p.version ≠ ENCRYPTION_FORMAT_VERSION) :
    ∀ u, validatePayload p.toLike ≠ Except.ok u := by
  intro u
  unfold validatePayload EncryptedPayload.toLike
  simp only [Option.isNone_some, Bool.false_eq_true, if_false, Option.getD_some]
  split_ifs <;> simp

-- ════════════════════════════════════════════════════════════════════════════
-- Claim theorems
-- ════════════════════════════════════════════════════════════════════════════

/-- C10: `timingSafeEqual` is total on all pairs of buffers — on a length
mismatch it returns `false` instead of invoking the underlying primitive
(which is defined only on equal-length buffers), and for equal-length
buffers it returns `true` exactly when they are byte-identical. -/
theorem claim_C10_timingSafeEqual_total :
    ∀ a b : Bytes,
      (a.length ≠ b.length → timingSafeEqual a b = false) ∧
      (timingSafeEqual a b = true ↔ a = b) := by
  intro a b
  constructor
  · intro h
    simp [timingSafeEqual, h]
  · unfold timingSafeEqual cryptoTimingSafeEqual
    by_cases h : a.length = b.length
    · simp [h]
    · simp only [h, dif_neg, if_false]
      constructor
      · intro hf; exact absurd hf (by simp)
      · intro he; exact absurd (congrArg List.length he) h

/-- Witness for C10 at concrete buffers: a length mismatch yields `false`,
and equal-length buffers compare by byte equality. -/
theorem claim_C10_witness :
    (([0] : Bytes).length ≠ ([] : Bytes).length → timingSafeEqual [0] [] = false) ∧
    (timingSafeEqual [1, 2] [1, 2] = true ↔ ([1, 2] : Bytes) = [1, 2]) :=
  ⟨(claim_C10_timingSafeEqual_total [0] []).1,
   (claim_C10_timingSafeEqual_total [1, 2] [1, 2]).2⟩

/-- C8: `deriveKey` is deterministic — with a caller-supplied salt the drawn
randomness is ignored and the result is a fixed 32-byte key with
iterations = 150,000 reported; and for a fixed password, distinct 16-byte
salts derive distinct keys. -/
theorem claim_C8_deriveKey_deterministic :
    ∀ (W : String) (S r1 r2 : Bytes), W.length ≠ 0 →
      deriveKey W (some S) r1 = deriveKey W (some S) r2 ∧
      deriveKey W (some S) r1 = Except.ok ⟨pbkdf2 W S, S, PBKDF2_ITERATIONS⟩ ∧
      PBKDF2_ITERATIONS = 150000 ∧
      (pbkdf2 W S).length = 32 ∧
      (∀ S2 : Bytes, S.length = 16 → S2.length = 16 → S ≠ S2 →
        pbkdf2 W S ≠ pbkdf2 W S2) := by
  intro W S r1 r2 hW
  refine ⟨rfl, ?_, rfl, pbkdf2_length W S, fun S2 h1 h2 hne => pbkdf2_inj_salt W h1 h2 hne⟩
  unfold deriveKey
  rw [if_neg hW]
  rfl

/-- Witness for C8 at a concrete password and concrete 16-byte salts. -/
theorem claim_C8_witness :
    deriveKey "hunter42" (some (List.replicate 16 7)) [1] =
      deriveKey "hunter42" (some (List.replicate 16 7)) [2] ∧
    deriveKey "hunter42" (some (List.replicate 16 7)) [1] =
      Except.ok ⟨pbkdf2 "hunter42" (List.replicate 16 7), List.replicate 16 7,
                 PBKDF2_ITERATIONS⟩ ∧
    PBKDF2_ITERATIONS = 150000 ∧
    (pbkdf2 "hunter42" (List.replicate 16 7)).length = 32 ∧
    (∀ S2 : Bytes, (List.replicate 16 7 : Bytes).length = 16 → S2.length = 16 →
      (List.replicate 16 7 : Bytes) ≠ S2 →
      pbkdf2 "hunter42" (List.replicate 16 7) ≠ pbkdf2 "hunter42" S2) :=
  claim_C8_deriveKey_deterministic "hunter42" (List.replicate 16 7) [1] [2] (by decide)

/-- C3 (code bug): in `encryptBuffer` the wipe `key.fill(0)` sits on the
straight-line success path with no try/finally, so when the AES-GCM cipher
creation throws (here: a caller-injected zero-length IV), the function exits
with the derived key never zeroed. -/
theorem claim_C3_wipe_skipped_on_cipher_error :
    (encryptBuffer [1, 2, 3] c3Options (List.replicate 16 0) []).keyDerived = true ∧
    (encryptBuffer [1, 2, 3] c3Options (List.replicate 16 0) []).keyWiped = false ∧
    (encryptBuffer [1, 2, 3] c3Options (List.replicate 16 0) []).res =
      Except.error "Invalid initialization vector" := by
  refine ⟨rfl, rfl, ?_⟩
  rfl

/-- C4 (amended): `decryptBuffer` runs the payload validator before key
derivation — any payload whose version differs from the supported version is
rejected with zero `deriveKey` calls — but the raw/file/stream entry points
(`decryptBufferRaw`, `decryptFile`, `decryptFileStream`) perform no payload
validation and invoke `deriveKey` regardless of the version field. -/
theorem claim_C4_validation_gate :
    (∀ (p : EncryptedPayload) (o : DecryptBufferOptions),
        p.version ≠ ENCRYPTION_FORMAT_VERSION →
        (decryptBuffer p o).res.isOk = false ∧ (decryptBuffer p o).deriveCalls = 0) ∧
    (∀ (p : EncryptedPayloadRaw) (o : DecryptBufferOptions),
        o.password.length ≠ 0 → (decryptBufferRaw p o).deriveCalls = 1) ∧
    (∀ (ip op : String) (md : EncryptionMetadata) (o : DecryptFileOptions)
        (fs : FS) (ct : Bytes), o.password.length ≠ 0 → fsLookup fs ip = some ct →
        (decryptFile ip op md o fs).deriveCalls = 1) ∧
    (∀ (ip op : String) (md : EncryptionMetadata) (o : DecryptFileOptions)
        (fs : FS) (ct : Bytes), o.password.length ≠ 0 → fsLookup fs ip = some ct →
        (decryptFileStream ip op md o fs).deriveCalls = 1) := by
  refine ⟨?_, ?_, ?_, ?_⟩
  · intro p o hv
    unfold decryptBuffer
    cases hpw : Decryption.validatePassword o.password with
    | error e => exact ⟨rfl, rfl⟩
    | ok u =>
      cases u
      cases hvp : validatePayload p.toLike with
      | error e => exact ⟨rfl, rfl⟩
      | ok u2 =>
        cases u2
        exact absurd hvp (validatePayload_toLike_version_ne hv ())
  · intro p o hpw
    unfold decryptBufferRaw
    rw [validatePasswordDec_ok hpw, deriveKey_some_ok hpw]
  · intro ip op md o fs ct hpw hct
    simp only [decryptFile, validatePasswordDec_ok hpw, hct, deriveKey_some_ok hpw]
    cases gcmDecryptCore (pbkdf2 o.password (fromBase64 md.salt))
        (fromBase64 md.iv) (fromBase64 md.authTag) ct <;> rfl
  · intro ip op md o fs ct hpw hct
    simp only [decryptFileStream, validatePasswordDec_ok hpw, hct, deriveKey_some_ok hpw]
    split_ifs <;> rfl

set_option maxRecDepth 10000 in
/-- C4 (counterexample): a well-authenticated raw payload whose version
field is 999 is not rejected by `decryptBufferRaw` — the key derivation runs
(call counter 1) and the plaintext is even returned. -/
theorem claim_C4_counterexample :
    c4Raw.version ≠ ENCRYPTION_FORMAT_VERSION ∧
    (decryptBufferRaw c4Raw ⟨"correct-password"⟩).deriveCalls = 1 ∧
    (decryptBufferRaw c4Raw ⟨"correct-password"⟩).res = Except.ok ⟨c4Plain, true⟩ := by
  refine ⟨by decide, by decide, by decide⟩

/-- Witness for C4 at concrete inputs: a version-999 typed payload is
rejected by `decryptBuffer` with no derivation, while the raw and file entry
points derive a key despite a wrong version. -/
theorem claim_C4_witness :
    ((decryptBuffer c4Payload ⟨"password123"⟩).res.isOk = false ∧
     (decryptBuffer c4Payload ⟨"password123"⟩).deriveCalls = 0) ∧
    (decryptBufferRaw c4Raw ⟨"correct-password"⟩).deriveCalls = 1 ∧
    (decryptFile "f.enc" "f.txt" c4Metadata ⟨"password123"⟩ c4Fs).deriveCalls = 1 ∧
    (decryptFileStream "f.enc" "f.txt" c4Metadata ⟨"password123"⟩ c4Fs).deriveCalls = 1 :=
  ⟨claim_C4_validation_gate.1 c4Payload ⟨"password123"⟩ (by decide),
   claim_C4_validation_gate.2.1 c4Raw ⟨"correct-password"⟩ (by decide),
   claim_C4_validation_gate.2.2.1 "f.enc" "f.txt" c4Metadata ⟨"password123"⟩ c4Fs
     [1, 2] (by decide) (by rfl),
   claim_C4_validation_gate.2.2.2 "f.enc" "f.txt" c4Metadata ⟨"password123"⟩ c4Fs
     [1, 2] (by decide) (by rfl)⟩

/-- C5: when `decryptFile` or `decryptFileStream` fails, the caller never
observes a partial decrypted output: the final filesystem either has no file
at `outputPath` (the error-path cleanup deleted it) or is the untouched
pre-call filesystem (the failure happened before any output was created);
a failed operation never resolves successfully, so `verified = true` is
never reported in that case. -/
theorem claim_C5_no_partial_output :
    ∀ (ip op : String) (md : EncryptionMetadata) (o : DecryptFileOptions) (fs : FS),
      ((decryptFile ip op md o fs).res.isOk = false →
        fsLookup (decryptFile ip op md o fs).fs op = none ∨
        (decryptFile ip op md o fs).fs = fs) ∧
      ((decryptFileStream ip op md o fs).res.isOk = false →
        fsLookup (decryptFileStream ip op md o fs).fs op = none ∨
        (decryptFileStream ip op md o fs).fs = fs) := by
  intro ip op md o fs
  constructor
  · intro h
    cases hpw : Decryption.validatePassword o.password with
    | error e => right; simp [decryptFile, hpw]
    | ok u =>
      cases u
      cases hin : fsLookup fs ip with
      | none => right; simp [decryptFile, hpw, hin]
      | some ct =>
        cases hdk : deriveKey o.password (some (fromBase64 md.salt)) [] with
        | error e => right; simp [decryptFile, hpw, hin, hdk]
        | ok dk =>
          cases hcore : gcmDecryptCore dk.key (fromBase64 md.iv)
              (fromBase64 md.authTag) ct with
          | ok r =>
            exfalso
            simp [decryptFile, hpw, hin, hdk, hcore, Except.isOk, Except.toBool] at h
          | error e =>
            left
            simp only [decryptFile, hpw, hin, hdk, hcore]
            exact fsLookup_fsErase_self fs op
  · intro h
    cases hpw : Decryption.validatePassword o.password with
    | error e => right; simp [decryptFileStream, hpw]
    | ok u =>
      cases u
      cases hin : fsLookup fs ip with
      | none => right; simp [decryptFileStream, hpw, hin]
      | some ct =>
        cases hdk : deriveKey o.password (some (fromBase64 md.salt)) [] with
        | error e => right; simp [decryptFileStream, hpw, hin, hdk]
        | ok dk =>
          simp only [decryptFileStream, hpw, hin, hdk] at h ⊢
          split_ifs at h ⊢ with h1 h2 h3
          · right; rfl
          · right; rfl
          · exfalso; simp [Except.isOk, Except.toBool] at h
          · left; exact fsLookup_fsErase_self fs op

/-- Witness for C5 at a concrete failing scenario (stored tag does not
authenticate): both file decrypt operations fail and leave no output file. -/
theorem claim_C5_witness :
    ((decryptFile "in.enc" "out.txt" c5Metadata ⟨"password123"⟩ c5Fs).res.isOk = false →
      fsLookup (decryptFile "in.enc" "out.txt" c5Metadata ⟨"password123"⟩ c5Fs).fs
          "out.txt" = none ∨
      (decryptFile "in.enc" "out.txt" c5Metadata ⟨"password123"⟩ c5Fs).fs = c5Fs) ∧
    ((decryptFileStream "in.enc" "out.txt" c5Metadata ⟨"password123"⟩ c5Fs).res.isOk = false →
      fsLookup (decryptFileStream "in.enc" "out.txt" c5Metadata ⟨"password123"⟩ c5Fs).fs
          "out.txt" = none ∨
      (decryptFileStream "in.enc" "out.txt" c5Metadata ⟨"password123"⟩ c5Fs).fs = c5Fs) :=
  claim_C5_no_partial_output "in.enc" "out.txt" c5Metadata ⟨"password123"⟩ c5Fs

/-- C9 (implicit frame effect): whenever `decryptFile` reaches its try block
and fails, the catch-block cleanup deletes whatever file exists at
`outputPath` — including a pre-existing file the call never wrote. -/
theorem claim_C9_deletes_preexisting_output :
    ∀ (ip op : String) (md : EncryptionMetadata) (o : DecryptFileOptions)
      (fs : FS) (old ct : Bytes),
      fsLookup fs op = some old →
      fsLookup fs ip = some ct →
      o.password.length ≠ 0 →
      (decryptFile ip op md o fs).res.isOk = false →
      fsLookup (decryptFile ip op md o fs).fs op = none := by
  intro ip op md o fs old ct hold hin hpw hfail
  simp only [decryptFile, validatePasswordDec_ok hpw, hin, deriveKey_some_ok hpw]
    at hfail ⊢
  cases hcore : gcmDecryptCore (pbkdf2 o.password (fromBase64 md.salt))
      (fromBase64 md.iv) (fromBase64 md.authTag) ct with
  | ok r => rw [hcore] at hfail; simp [Except.isOk, Except.toBool] at hfail
  | error e => exact fsLookup_fsErase_self fs op

set_option maxRecDepth 10000 in
/-- Witness for C9: a failed decrypt removes the unrelated pre-existing file
at the output path. -/
theorem claim_C9_witness :
    fsLookup (decryptFile "cipher.enc" "plain.pdf" c9Metadata ⟨"secret-password"⟩
        c9Fs).fs "plain.pdf" = none :=
  claim_C9_deletes_preexisting_output "cipher.enc" "plain.pdf" c9Metadata
    ⟨"secret-password"⟩ c9Fs [1, 2, 3, 4, 5] [4, 4, 4, 4]
    (by decide) (by decide) (by decide) (by decide)

/-- On a payload with every field present whose base-64 and length stages
all pass, `validatePayload` reduces to the version check. -/
theorem validatePayload_stages_pass {ct saltS ivS tagS : String} {ver : Int}
    (hct : ¬(0 < ct.length ∧ isValidBase64 ct = false))
    (hs : isValidBase64 saltS = true) (hi : isValidBase64 ivS = true)
    (ht : isValidBase64 tagS = true)
    (hsl : (fromBase64 saltS).length = SALT_LENGTH_BYTES)
    (hil : (fromBase64 ivS).length = IV_LENGTH_BYTES)
    (htl : (fromBase64 tagS).length = GCM_AUTH_TAG_LENGTH_BYTES) :
    validatePayload ⟨some ct, some saltS, some ivS, some tagS, some ver⟩ =
      if ver ≠ ENCRYPTION_FORMAT_VERSION then
        Except.error ⟨"Unsupported encryption version",
                      DecryptionErrorCode.UNSUPPORTED_VERSION⟩
      else Except.ok () := by
  unfold validatePayload
  simp only [Option.isNone_some, Bool.false_eq_true, if_false, Option.getD_some,
    Bool.not_eq_true]
  rw [if_neg hct, if_neg (by simp [hs]), if_neg (by simp [hi]), if_neg (by simp [ht]),
      if_neg (by simp [hsl]), if_neg (by simp [hil]), if_neg (by simp [htl])]

/-- C6: `validatePayload` checks in order — a missing required field gives
MISSING_FIELDS (regardless of everything else); with all fields present, a
base-64 failure of cipherText (only when non-empty), salt, iv or authTag, or
a decoded salt/iv/authTag length other than 16/12/16 bytes, gives
INVALID_FORMAT; with those stages passing, a version other than the
supported one gives UNSUPPORTED_VERSION; and a payload passing every check
raises nothing. -/
theorem claim_C6_validatePayload_checks :
    (∀ p : PayloadLike,
        (p.cipherText = none ∨ p.salt = none ∨ p.iv = none ∨ p.authTag = none ∨
         p.version = none) →
        ∃ m, validatePayload p =
          Except.error ⟨m, DecryptionErrorCode.MISSING_FIELDS⟩) ∧
    (∀ (ct saltS ivS tagS : String) (ver : Int),
        ((0 < ct.length ∧ isValidBase64 ct = false) ∨ isValidBase64 saltS = false ∨
         isValidBase64 ivS = false ∨ isValidBase64 tagS = false ∨
         (fromBase64 saltS).length ≠ SALT_LENGTH_BYTES ∨
         (fromBase64 ivS).length ≠ IV_LENGTH_BYTES ∨
         (fromBase64 tagS).length ≠ GCM_AUTH_TAG_LENGTH_BYTES) →
        ∃ m, validatePayload ⟨some ct, some saltS, some ivS, some tagS, some ver⟩ =
          Except.error ⟨m, DecryptionErrorCode.INVALID_FORMAT⟩) ∧
    (∀ (ct saltS ivS tagS : String) (ver : Int),
        ¬(0 < ct.length ∧ isValidBase64 ct = false) →
        isValidBase64 saltS = true → isValidBase64 ivS = true →
        isValidBase64 tagS = true →
        (fromBase64 saltS).length = SALT_LENGTH_BYTES →
        (fromBase64 ivS).length = IV_LENGTH_BYTES →
        (fromBase64 tagS).length = GCM_AUTH_TAG_LENGTH_BYTES →
        ver ≠ ENCRYPTION_FORMAT_VERSION →
        validatePayload ⟨some ct, some saltS, some ivS, some tagS, some ver⟩ =
          Except.error ⟨"Unsupported encryption version",
                        DecryptionErrorCode.UNSUPPORTED_VERSION⟩) ∧
    (∀ (ct saltS ivS tagS : String) (ver : Int),
        ¬(0 < ct.length ∧ isValidBase64 ct = false) →
        isValidBase64 saltS = true → isValidBase64 ivS = true →
        isValidBase64 tagS = true →
        (fromBase64 saltS).length = SALT_LENGTH_BYTES →
        (fromBase64 ivS).length = IV_LENGTH_BYTES →
        (fromBase64 tagS).length = GCM_AUTH_TAG_LENGTH_BYTES →
        ver = ENCRYPTION_FORMAT_VERSION →
        validatePayload ⟨some ct, some saltS, some ivS, some tagS, some ver⟩ =
          Except.ok ()) := by
  refine ⟨?_, ?_, ?_, ?_⟩
  · intro p h
    unfold validatePayload
    by_cases h1 : p.cipherText.isNone = true
    · rw [if_pos h1]; exact ⟨_, rfl⟩
    · rw [if_neg h1]
      by_cases h2 : p.salt.isNone = true
      · rw [if_pos h2]; exact ⟨_, rfl⟩
      · rw [if_neg h2]
        by_cases h3 : p.iv.isNone = true
        · rw [if_pos h3]; exact ⟨_, rfl⟩
        · rw [if_neg h3]
          by_cases h4 : p.authTag.isNone = true
          · rw [if_pos h4]; exact ⟨_, rfl⟩
          · rw [if_neg h4]
            by_cases h5 : p.version.isNone = true
            · rw [if_pos h5]; exact ⟨_, rfl⟩
            · exfalso
              rcases h with h | h | h | h | h
              · exact h1 (Option.isNone_iff_eq_none.mpr h)
              · exact h2 (Option.isNone_iff_eq_none.mpr h)
              · exact h3 (Option.isNone_iff_eq_none.mpr h)
              · exact h4 (Option.isNone_iff_eq_none.mpr h)
              · exact h5 (Option.isNone_iff_eq_none.mpr h)
  · intro ct saltS ivS tagS ver hd
    unfold validatePayload
    simp only [Option.isNone_some, Bool.false_eq_true, if_false, Option.getD_some,
      Bool.not_eq_true]
    by_cases c1 : 0 < ct.length ∧ isValidBase64 ct = false
    · rw [if_pos c1]; exact ⟨_, rfl⟩
    · rw [if_neg c1]
      by_cases c2 : isValidBase64 saltS = false
      · rw [if_pos c2]; exact ⟨_, rfl⟩
      · rw [if_neg c2]
        by_cases c3 : isValidBase64 ivS = false
        · rw [if_pos c3]; exact ⟨_, rfl⟩
        · rw [if_neg c3]
          by_cases c4 : isValidBase64 tagS = false
          · rw [if_pos c4]; exact ⟨_, rfl⟩
          · rw [if_neg c4]
            by_cases c5 : (fromBase64 saltS).length ≠ SALT_LENGTH_BYTES
            · rw [if_pos c5]; exact ⟨_, rfl⟩
            · rw [if_neg c5]
              by_cases c6 : (fromBase64 ivS).length ≠ IV_LENGTH_BYTES
              · rw [if_pos c6]; exact ⟨_, rfl⟩
              · rw [if_neg c6]
                by_cases c7 : (fromBase64 tagS).length ≠ GCM_AUTH_TAG_LENGTH_BYTES
                · rw [if_pos c7]; exact ⟨_, rfl⟩
                · exfalso
                  rcases hd with hd | hd | hd | hd | hd | hd | hd
                  · exact c1 hd
                  · exact c2 hd
                  · exact c3 hd
                  · exact c4 hd
                  · exact c5 hd
                  · exact c6 hd
                  · exact c7 hd
  · intro ct saltS ivS tagS ver hct hs hi ht hsl hil htl hv
    rw [validatePayload_stages_pass hct hs hi ht hsl hil htl, if_pos hv]
  · intro ct saltS ivS tagS ver hct hs hi ht hsl hil htl hv
    rw [validatePayload_stages_pass hct hs hi ht hsl hil htl,
        if_neg (by simp [hv])]

/-- Witness for C6 at concrete payloads exercising each classification:
a missing salt, a non-base-64 salt, a wrong version, and a fully valid
payload. -/
theorem claim_C6_witness :
    (∃ m, validatePayload ⟨some "", none, some "AAAAAAAAAAAAAAAA", some "AAAAAAAAAAAAAAAAAAAAAA==", some 1⟩ =
      Except.error ⟨m, DecryptionErrorCode.MISSING_FIELDS⟩) ∧
    (∃ m, validatePayload ⟨some "", some "!bad", some "AAAAAAAAAAAAAAAA", some "AAAAAAAAAAAAAAAAAAAAAA==", some 1⟩ =
      Except.error ⟨m, DecryptionErrorCode.INVALID_FORMAT⟩) ∧
    validatePayload ⟨some "", some "AAAAAAAAAAAAAAAAAAAAAA==", some "AAAAAAAAAAAAAAAA", some "AAAAAAAAAAAAAAAAAAAAAA==", some 999⟩ =
      Except.error ⟨"Unsupported encryption version",
                    DecryptionErrorCode.UNSUPPORTED_VERSION⟩ ∧
    validatePayload ⟨some "", some "AAAAAAAAAAAAAAAAAAAAAA==", some "AAAAAAAAAAAAAAAA", some "AAAAAAAAAAAAAAAAAAAAAA==", some 1⟩ =
      Except.ok () :=
  ⟨claim_C6_validatePayload_checks.1 _ (Or.inr (Or.inl rfl)),
   claim_C6_validatePayload_checks.2.1 "" "!bad" "AAAAAAAAAAAAAAAA"
     "AAAAAAAAAAAAAAAAAAAAAA==" 1 (Or.inr (Or.inl (by decide))),
   claim_C6_validatePayload_checks.2.2.1 "" "AAAAAAAAAAAAAAAAAAAAAA=="
     "AAAAAAAAAAAAAAAA" "AAAAAAAAAAAAAAAAAAAAAA==" 999 (by decide) (by decide)
     (by decide) (by decide) (by decide) (by decide) (by decide) (by decide),
   claim_C6_validatePayload_checks.2.2.2 "" "AAAAAAAAAAAAAAAAAAAAAA=="
     "AAAAAAAAAAAAAAAA" "AAAAAAAAAAAAAAAAAAAAAA==" 1 (by decide) (by decide)
     (by decide) (by decide) (by decide) (by decide) (by decide) (by decide)⟩

/-- With a valid password and a 12-byte IV, `encryptBuffer` (with no
caller-injected salt/IV) succeeds and produces the payload built from the
drawn salt and IV, with the key wiped. -/
theorem encryptBuffer_ok {W : String} (hW : 8 ≤ W.length)
    (P saltR ivR : Bytes) (hiv : ivR.length = 12) :
    encryptBuffer P ⟨W, none, none⟩ saltR ivR =
      ⟨Except.ok ⟨toBase64 (gcmXor (pbkdf2 W saltR) ivR 0 P), toBase64 saltR,
                  toBase64 ivR,
                  toBase64 (gcmTag (pbkdf2 W saltR) ivR
                    (gcmXor (pbkdf2 W saltR) ivR 0 P)),
                  ENCRYPTION_FORMAT_VERSION⟩, true, true⟩ := by
  have h0 : ¬ W.length = 0 := by omega
  have hpv : Encryption.validatePassword W = Except.ok () := by
    unfold Encryption.validatePassword
    rw [if_neg h0, if_neg (by omega)]
  have hdk : deriveKey W none saltR =
      Except.ok ⟨pbkdf2 W saltR, saltR, PBKDF2_ITERATIONS⟩ := by
    unfold deriveKey
    rw [if_neg h0]
    rfl
  have hcc : createCipheriv (pbkdf2 W saltR) ivR = Except.ok () := by
    unfold createCipheriv
    rw [if_neg (by simp [pbkdf2_length, AES_KEY_LENGTH_BYTES]),
        if_neg (by simp [hiv])]
  simp only [encryptBuffer, hpv, hdk, hcc, Option.getD_none]

set_option maxRecDepth 10000 in
/-- C7 (counterexample): for the empty plaintext, two independent
`encryptBuffer` calls that draw distinct salts and distinct IVs still
produce identical (empty) `cipherText` fields, so not all three fields
differ between the calls. -/
theorem claim_C7_counterexample :
    cexS1 ≠ cexS2 ∧ cexI1 ≠ cexI2 ∧
    (encryptBuffer [] ⟨"password123", none, none⟩ cexS1 cexI1).res.map
        EncryptedPayload.cipherText =
      (encryptBuffer [] ⟨"password123", none, none⟩ cexS2 cexI2).res.map
        EncryptedPayload.cipherText :=
  ⟨by decide, by decide, by decide⟩

/-- C7 (amended): two independent `encryptBuffer` calls with no
caller-injected salt/IV whose drawn random salts differ and whose drawn
random IVs differ produce payloads whose `salt` fields differ and whose
`iv` fields differ; the `cipherText` fields need not differ — for the empty
plaintext both are empty. -/
theorem claim_C7_fresh_salt_iv :
    ∀ (P : Bytes) (W : String) (s1 i1 s2 i2 : Bytes),
      8 ≤ W.length →
      s1.length = 16 → s2.length = 16 → ByteWF s1 → ByteWF s2 →
      i1.length = 12 → i2.length = 12 → ByteWF i1 → ByteWF i2 →
      s1 ≠ s2 → i1 ≠ i2 →
      (encryptBuffer P ⟨W, none, none⟩ s1 i1).res.map EncryptedPayload.salt ≠
        (encryptBuffer P ⟨W, none, none⟩ s2 i2).res.map EncryptedPayload.salt ∧
      (encryptBuffer P ⟨W, none, none⟩ s1 i1).res.map EncryptedPayload.iv ≠
        (encryptBuffer P ⟨W, none, none⟩ s2 i2).res.map EncryptedPayload.iv := by
  intro P W s1 i1 s2 i2 hW hs1 hs2 hw1 hw2 hi1 hi2 hwi1 hwi2 hss hii
  rw [encryptBuffer_ok hW P s1 i1 hi1, encryptBuffer_ok hW P s2 i2 hi2]
  constructor
  · simp only [Except.map]
    intro he
    injection he with he'
    exact hss (toBase64_inj hw1 hw2 he')
  · simp only [Except.map]
    intro he
    injection he with he'
    exact hii (toBase64_inj hwi1 hwi2 he')

/-- Witness for C7 at a concrete non-empty plaintext and distinct drawn
salts and IVs. -/
theorem claim_C7_witness :
    (encryptBuffer [5] ⟨"password", none, none⟩ cexS1 cexI1).res.map
        EncryptedPayload.salt ≠
      (encryptBuffer [5] ⟨"password", none, none⟩ cexS2 cexI2).res.map
        EncryptedPayload.salt ∧
    (encryptBuffer [5] ⟨"password", none, none⟩ cexS1 cexI1).res.map
        EncryptedPayload.iv ≠
      (encryptBuffer [5] ⟨"password", none, none⟩ cexS2 cexI2).res.map
        EncryptedPayload.iv :=
  claim_C7_fresh_salt_iv [5] "password" cexS1 cexI1 cexS2 cexI2 (by decide)
    (by decide) (by decide) (by decide) (by decide) (by decide) (by decide)
    (by decide) (by decide) (by decide) (by decide)

/-- A base-64 encoded ciphertext never trips the validator's cipherText
check: when empty it is skipped, and when non-empty it is valid base-64. -/
theorem toBase64_cipherText_check (l : Bytes) :
    ¬(0 < (toBase64 l).length ∧ isValidBase64 (toBase64 l) = false) := by
  by_cases h : l = []
  · subst h
    intro hc
    exact absurd hc.1 (by decide)
  · intro hc
    rw [isValidBase64_toBase64 h] at hc
    exact absurd hc.2 (by decide)

/-- Decrypting a payload whose fields encode a ciphertext together with its
matching tag under the key derived from the stored salt succeeds and
returns the keystream-XOR of the ciphertext with `verified = true`. -/
theorem decryptBuffer_matching_tag {W : String} (h0 : W.length ≠ 0)
    (ct saltB ivB : Bytes) (hctw : ByteWF ct) (hsw : ByteWF saltB)
    (hiw : ByteWF ivB) (hsl : saltB.length = 16) (hil : ivB.length = 12) :
    decryptBuffer ⟨toBase64 ct, toBase64 saltB, toBase64 ivB,
                   toBase64 (gcmTag (pbkdf2 W saltB) ivB ct),
                   ENCRYPTION_FORMAT_VERSION⟩ ⟨W⟩ =
      ⟨Except.ok ⟨gcmXor (pbkdf2 W saltB) ivB 0 ct, true⟩, 1⟩ := by
  have hsne : saltB ≠ [] := by
    intro h
    rw [h] at hsl
    simp at hsl
  have hine : ivB ≠ [] := by
    intro h
    rw [h] at hil
    simp at hil
  have htagwf := gcmTag_wf (pbkdf2 W saltB) ivB ct
  have hvp : validatePayload
      ⟨some (toBase64 ct), some (toBase64 saltB), some (toBase64 ivB),
       some (toBase64 (gcmTag (pbkdf2 W saltB) ivB ct)),
       some ENCRYPTION_FORMAT_VERSION⟩ = Except.ok () := by
    rw [validatePayload_stages_pass (toBase64_cipherText_check ct)
          (isValidBase64_toBase64 hsne) (isValidBase64_toBase64 hine)
          (isValidBase64_toBase64 (gcmTag_ne_nil _ _ _))
          (by rw [fromBase64_toBase64 hsw, hsl]; rfl)
          (by rw [fromBase64_toBase64 hiw, hil]; rfl)
          (by rw [fromBase64_toBase64 htagwf, gcmTag_length]; rfl)]
    rw [if_neg (by simp)]
  have hlike : EncryptedPayload.toLike
      ⟨toBase64 ct, toBase64 saltB, toBase64 ivB,
       toBase64 (gcmTag (pbkdf2 W saltB) ivB ct), ENCRYPTION_FORMAT_VERSION⟩ =
      ⟨some (toBase64 ct), some (toBase64 saltB), some (toBase64 ivB),
       some (toBase64 (gcmTag (pbkdf2 W saltB) ivB ct)),
       some ENCRYPTION_FORMAT_VERSION⟩ := rfl
  simp only [decryptBuffer, validatePasswordDec_ok h0, hlike, hvp,
    fromBase64_toBase64 hctw, fromBase64_toBase64 hsw, fromBase64_toBase64 hiw,
    fromBase64_toBase64 htagwf, deriveKey_some_ok h0]
  unfold gcmDecryptCore
  rw [if_neg (by rw [hil]; decide), if_neg (by rw [gcmTag_length]; decide),
      if_pos rfl]

/-- C1: for every plaintext (the empty one included), every password of at
least 8 characters, and any drawn 16-byte salt and 12-byte IV, decrypting
the encryption of the plaintext with the same password succeeds and returns
the original data with `verified = true`. -/
theorem claim_C1_encrypt_decrypt_roundtrip :
    ∀ (P : Bytes) (W : String) (saltR ivR : Bytes),
      ByteWF P → 8 ≤ W.length →
      saltR.length = 16 → ByteWF saltR →
      ivR.length = 12 → ByteWF ivR →
      (encryptBuffer P ⟨W, none, none⟩ saltR ivR).res.map
          (fun payload => (decryptBuffer payload ⟨W⟩).res) =
        Except.ok (Except.ok ⟨P, true⟩) := by
  intro P W saltR ivR hP hW hsl hsw hil hiw
  have h0 : W.length ≠ 0 := by omega
  rw [encryptBuffer_ok hW P saltR ivR hil]
  simp only [Except.map]
  refine congrArg Except.ok ?_
  rw [decryptBuffer_matching_tag h0 (gcmXor (pbkdf2 W saltR) ivR 0 P) saltR ivR
        (gcmXor_wf _ _ 0 P hP) hsw hiw hsl hil]
  rw [gcmXor_gcmXor]

/-- Witness for C1: a concrete 5-byte plaintext round-trips through
`encryptBuffer`/`decryptBuffer` under the password "password" with concrete
drawn salt and IV. -/
theorem claim_C1_witness :
    (encryptBuffer [72, 101, 108, 108, 111] ⟨"password", none, none⟩
        (List.replicate 16 11) (List.replicate 12 13)).res.map
        (fun payload => (decryptBuffer payload ⟨"password"⟩).res) =
      Except.ok (Except.ok ⟨[72, 101, 108, 108, 111], true⟩) :=
  claim_C1_encrypt_decrypt_roundtrip [72, 101, 108, 108, 111] "password"
    (List.replicate 16 11) (List.replicate 12 13) (by decide) (by decide)
    (by decide) (by decide) (by decide) (by decide)

/-- The exact code-level gate behind the wrong-password/tamper guarantees:
`decryptBuffer` returns plaintext only when the tag recomputed from the
derived key, stored IV and stored ciphertext equals the stored tag; the
universally-quantified failure guarantees themselves (wrong password,
flipped ciphertext byte) are probabilistic properties of the cryptographic
primitives, not functional properties of this code. -/
theorem decryptBuffer_ok_implies_tag_match (p : EncryptedPayload)
    (o : DecryptBufferOptions) (r : DecryptionResult) :
    (decryptBuffer p o).res = Except.ok r →
    gcmTag (pbkdf2 o.password (fromBase64 p.salt)) (fromBase64 p.iv)
        (fromBase64 p.cipherText) = fromBase64 p.authTag := by
  intro h
  cases hpw : Decryption.validatePassword o.password with
  | error e =>
    simp only [decryptBuffer, hpw] at h
    exact absurd h (by simp)
  | ok u =>
    cases u
    cases hvp : validatePayload p.toLike with
    | error e =>
      simp only [decryptBuffer, hpw, hvp] at h
      exact absurd h (by simp)
    | ok u2 =>
      cases u2
      have h0 : o.password.length ≠ 0 := by
        intro hz
        unfold Decryption.validatePassword at hpw
        rw [if_pos hz] at hpw
        exact absurd hpw (by simp)
      simp only [decryptBuffer, hpw, hvp, deriveKey_some_ok h0] at h
      unfold gcmDecryptCore at h
      split_ifs at h with h1 h2 h3
      exact h3

end DocVault
